import Mathlib

/-!
Verification of the codentix history-store backend and the Gemini client.

The history store is the Express backend (`POST /api/history`, `GET /api/history`)
over a single SQLite table with a UNIQUE `hash` column.  The store state is the
ordered list of committed rows plus the autoincrement counter.  External
builtins (the SHA-256 hex digest, `JSON.parse`, the generative-AI service) are
parameters of the embedded operations: each theorem holds for every behaviour
of the builtin, or takes the builtin's relevant property as a hypothesis.
-/

/-- One persisted row of the `history` table, with the columns declared by the
`CREATE TABLE` statement. -/
structure HistoryRow where
  id : Nat
  originalCode : String
  improvedCode : String
  timestamp : String
  language : String
  timeComplexity : String
  spaceComplexity : String
  cyclomaticComplexity : Int
  hash : String
deriving DecidableEq, Repr

/-- The store: committed rows in insertion (rowid) order, plus the next
autoincrement id. -/
structure Store where
  rows : List HistoryRow
  nextId : Nat
deriving DecidableEq, Repr

/-- A freshly created database: no rows, autoincrement starts at 1. -/
def emptyStore : Store := ⟨[], 1⟩

/-- Optional `complexity` object of the POST body, with its optional fields. -/
structure ComplexityBody where
  time : Option String
  space : Option String
  cyclomatic : Option Int
deriving DecidableEq, Repr

/-- Body of `POST /api/history` as destructured by the handler.  A client may
omit `language` and `complexity`; the two code fields are strings (an absent
field behaves like the empty string under the handler's falsiness test). -/
structure RecordReq where
  originalCode : String
  improvedCode : String
  language : Option String
  complexity : Option ComplexityBody
deriving DecidableEq, Repr

/-- Response of `POST /api/history`: `ok inserted` is the 200 body
`\x7bsuccess:true, inserted\x7d`; `badRequest` is the 400 response for missing
required fields. -/
inductive RecordResp where
  | ok (inserted : Bool)
  | badRequest
deriving DecidableEq, Repr

/-- JavaScript `a || d` on an optional string: `undefined` and `""` are falsy. -/
def jsOrStr (o : Option String) (d : String) : String :=
  match o with
  | none => d
  | some s => if s = "" then d else s

/-- The row the handler binds into the `INSERT OR IGNORE` statement:
defaults `language || 'unknown'`, `complexity?.time || 'unknown'`,
`complexity?.space || 'unknown'`, `complexity?.cyclomatic || 0`; `now` is
`new Date().toISOString()` and `id` the autoincrement value. -/
def rowOfReq (req : RecordReq) (now : String) (hash : String) (id : Nat) : HistoryRow :=
  { id := id
    originalCode := req.originalCode
    improvedCode := req.improvedCode
    timestamp := now
    language := jsOrStr req.language "unknown"
    timeComplexity := jsOrStr (req.complexity.bind ComplexityBody.time) "unknown"
    spaceComplexity := jsOrStr (req.complexity.bind ComplexityBody.space) "unknown"
    cyclomaticComplexity := (req.complexity.bind ComplexityBody.cyclomatic).getD 0
    hash := hash }

/-- The `POST /api/history` handler.  `digest` is the builtin
`crypto.createHash('sha256')...digest('hex')` hex digest; the handler applies
it to the bare concatenation `originalCode + improvedCode`.  Empty (or absent)
code fields fail the `!originalCode || !improvedCode` guard with a 400.
`INSERT OR IGNORE` under the UNIQUE constraint on `hash` commits the new row
exactly when no committed row already carries the same hash, and
`info.changes > 0` is reported as `inserted`. -/
def postHistory (digest : String → String) (now : String) (req : RecordReq) (st : Store) :
    RecordResp × Store :=
  if req.originalCode = "" ∨ req.improvedCode = "" then
    (RecordResp.badRequest, st)
  else if digest (req.originalCode ++ req.improvedCode) ∈ st.rows.map HistoryRow.hash then
    (RecordResp.ok false, st)
  else
    (RecordResp.ok true,
      { rows := st.rows ++
          [rowOfReq req now (digest (req.originalCode ++ req.improvedCode)) st.nextId],
        nextId := st.nextId + 1 })

/-- The ordering `ORDER BY timestamp DESC` compares the TEXT column with
SQLite's default binary collation, i.e. the string order, descending. -/
def tsDesc (a b : HistoryRow) : Prop := b.timestamp ≤ a.timestamp

instance : DecidableRel tsDesc :=
  fun a b => inferInstanceAs (Decidable (b.timestamp ≤ a.timestamp))

instance : IsTotal HistoryRow tsDesc := ⟨fun a b => le_total b.timestamp a.timestamp⟩

instance : IsTrans HistoryRow tsDesc := ⟨fun _ _ _ h1 h2 => le_trans h2 h1⟩

/-- The `GET /api/history` handler:
`SELECT * FROM history ORDER BY timestamp DESC LIMIT 100`. -/
def getHistory (st : Store) : List HistoryRow :=
  (List.insertionSort tsDesc st.rows).take 100

example : postHistory (fun s => s) "t" ⟨"a", "b", none, none⟩ emptyStore =
    (RecordResp.ok true, ⟨[⟨1, "a", "b", "t", "unknown", "unknown", "unknown", 0, "ab"⟩], 2⟩) := by
  decide

example : getHistory emptyStore = [] := rfl

/-! The Gemini client (`reviewCode`, `chatWithCode`, `mapModel`). -/

/-- The `ReviewMode` union type. -/
inductive ReviewMode where
  | student | interview | industry
deriving DecidableEq, Repr

/-- The `ImplementationStyle` union type. -/
inductive ImplementationStyle where
  | default | functional | recursive | flat
deriving DecidableEq, Repr

/-- The `ModelType` union type of logical model identifiers. -/
inductive ModelType where
  | gemini3FlashPreview
  | gemini31ProPreview
  | claude4
  | gpt5
  | microsoftCopilot
  | githubCopilot
deriving DecidableEq, Repr

/-- The string literal each `ModelType` member stands for. -/
def modelTypeStr : ModelType → String
  | .gemini3FlashPreview => "gemini-3-flash-preview"
  | .gemini31ProPreview => "gemini-3.1-pro-preview"
  | .claude4 => "claude-4"
  | .gpt5 => "gpt-5"
  | .microsoftCopilot => "microsoft-copilot"
  | .githubCopilot => "github-copilot"

/-- The `VerbosityLevel` union type. -/
inductive VerbosityLevel where
  | concise | normal | detailed
deriving DecidableEq, Repr

/-- The `ToneStyle` union type. -/
inductive ToneStyle where
  | professional | casual | encouraging
deriving DecidableEq, Repr

/-- The `mapModel` switch: logical identifiers are mapped to concrete
backing-service model names; the `default` branch returns the identifier
itself. -/
def mapModel : ModelType → String
  | .claude4 => "gemini-3-flash-preview"
  | .gpt5 => "gemini-3.1-pro-preview"
  | .microsoftCopilot => "gemini-3.1-pro-preview"
  | .githubCopilot => "gemini-3.1-pro-preview"
  | m => modelTypeStr m

/-- The `isConversion` condition of `reviewCode`:
`targetLanguage && targetLanguage !== "none" && targetLanguage !== language`,
where an absent or empty `targetLanguage` is falsy. -/
def isConversion (language : String) (targetLanguage : Option String) : Bool :=
  match targetLanguage with
  | none => false
  | some t => !(t = "") && !(t = "none") && !(t = language)

/-- A JavaScript value produced by `JSON.parse` (numbers kept as their source
literal; no numeric semantics are needed here). -/
inductive JsonValue where
  | null
  | bool (b : Bool)
  | num (lit : String)
  | str (s : String)
  | arr (elems : List JsonValue)
  | obj (fields : List (String × JsonValue))

/-- Field lookup on a parsed JSON value, `none` when absent or not an object. -/
def JsonValue.getField : JsonValue → String → Option JsonValue
  | .obj fields, k => fields.lookup k
  | _, _ => none

/-- Error message thrown when `GEMINI_API_KEY` is unset. -/
def missingKeyMsg : String := "GEMINI_API_KEY is not set"

/-- Error message thrown when the response text is empty. -/
def emptyResponseMsg : String := "The AI model returned an empty response. Please try again."

/-- Error message thrown when the response text fails `JSON.parse`. -/
def malformedMsg : String :=
  "Failed to process the AI\x27s response. The generated content was not in the expected format."

/-- Error message for upstream errors whose message mentions the API key. -/
def invalidKeyMsg : String :=
  "Invalid API key configuration. Please check your environment variables."

/-- Error message for upstream errors whose message mentions safety. -/
def safetyMsg : String :=
  "The code review was blocked by safety filters. Please ensure your code follows safety guidelines."

/-- Error message for upstream quota / rate-limit errors. -/
def quotaMsg : String :=
  "API quota exceeded or too many requests. Please wait a moment before trying again."

/-- Default message when the upstream error carries an empty message. -/
def defaultUpstreamMsg : String :=
  "An error occurred while communicating with the AI. Please check your connection and try again."

/-- Fallback answer `chatWithCode` returns when the response text is empty. -/
def chatFallback : String := "I\x27m sorry, I couldn\x27t generate a response."

/-- Whether `pat` occurs as a contiguous run at the front of `l`. -/
def isPre : List Char → List Char → Bool
  | [], _ => true
  | _ :: _, [] => false
  | a :: pat, b :: l => a = b && isPre pat l

/-- JavaScript `s.includes(pat)`: `pat` occurs contiguously somewhere in `s`
(the empty pattern always occurs). -/
def containsSub (s pat : String) : Bool :=
  (List.range (s.data.length + 1)).any fun i => isPre pat.data (s.data.drop i)

/-- The catch-all classification of `reviewCode`: substring tests on the
caught error message, then `apiError.message || default`. -/
def classify (msg : String) : String :=
  if containsSub msg "API key" then invalidKeyMsg
  else if containsSub msg "safety" then safetyMsg
  else if containsSub msg "quota" || containsSub msg "429" then quotaMsg
  else if msg = "" then defaultUpstreamMsg
  else msg

/-- Behaviour of the one `generateContent` / `sendMessage` call a client
function issues: the call either returns a response whose `.text` is `text`
(`""` standing for an absent text), or throws an error carrying `msg`. -/
inductive SvcResp where
  | success (text : String)
  | failure (msg : String)
deriving DecidableEq, Repr

/-- Arguments of `reviewCode`, with the declared defaults made explicit by the
caller. -/
structure ReviewArgs where
  code : String
  language : String
  mode : ReviewMode
  targetLanguage : Option String
  style : ImplementationStyle
  model : ModelType
  errorLog : String
  houseStyle : String
  verbosity : VerbosityLevel
  tone : ToneStyle

/-- The observable part of the one request `reviewCode` sends: the mapped
model name and whether the prompt carries the conversion directive. -/
structure SentRequest where
  model : String
  conversionRequested : Bool
deriving DecidableEq, Repr

/-- The embedded `reviewCode`.  `apiKey` is `process.env.GEMINI_API_KEY`,
`parseJson` the builtin `JSON.parse` (`none` when it throws), and `svcResp`
how the single `generateContent` call behaves.  The result pairs the returned
value or finally-thrown message with the list of service requests issued.
The inner throws for empty text and for a parse failure are caught by the
outer catch and re-classified, exactly as in the source. -/
def reviewCode (apiKey : Option String) (parseJson : String → Option JsonValue)
    (svcResp : SvcResp) (args : ReviewArgs) : Except String JsonValue × List SentRequest :=
  if apiKey.getD "" = "" then
    (Except.error missingKeyMsg, [])
  else
    let req : SentRequest :=
      ⟨mapModel args.model, isConversion args.language args.targetLanguage⟩
    match svcResp with
    | .failure msg => (Except.error (classify msg), [req])
    | .success text =>
      if text = "" then
        (Except.error (classify emptyResponseMsg), [req])
      else
        match parseJson text with
        | some v => (Except.ok v, [req])
        | none => (Except.error (classify malformedMsg), [req])

/-- One turn of the chat transcript (`role` plus the `parts` texts). -/
structure ChatTurn where
  isUser : Bool
  parts : List String
deriving DecidableEq, Repr

/-- Arguments of `chatWithCode` with defaults made explicit. -/
structure ChatArgs where
  code : String
  question : String
  history : List ChatTurn
  model : ModelType
  errorLog : String

/-- The observable part of the one request `chatWithCode` sends: the mapped
model, the replayed transcript, and the new message. -/
structure SentChat where
  model : String
  history : List ChatTurn
  message : String
deriving DecidableEq, Repr

/-- The embedded `chatWithCode`: same credential guard, one `sendMessage`
call, `response.text || fallback`; it has no catch, so a thrown service error
propagates with its own message. -/
def chatWithCode (apiKey : Option String) (svcResp : SvcResp) (args : ChatArgs) :
    Except String String × List SentChat :=
  if apiKey.getD "" = "" then
    (Except.error missingKeyMsg, [])
  else
    let req : SentChat := ⟨mapModel args.model, args.history, args.question⟩
    match svcResp with
    | .failure msg => (Except.error msg, [req])
    | .success text =>
      (Except.ok (if text = "" then chatFallback else text), [req])

example : classify malformedMsg = malformedMsg := by decide
example : classify "" = defaultUpstreamMsg := by decide
example : containsSub "wrong API key given" "API key" = true := by decide

/-! Claim theorems. -/

/-- Claim C3: for every state of the history store, `GET /api/history` returns
at most 100 records, sorted by `timestamp` descending; on the empty store it
returns the empty sequence, not an error. -/
theorem C3_list_capped_and_sorted :
    (∀ st : Store,
      (getHistory st).length ≤ 100 ∧ List.Sorted tsDesc (getHistory st)) ∧
    getHistory emptyStore = [] := by
  refine ⟨fun st => ⟨List.length_take_le 100 _, ?_⟩, rfl⟩
  exact (List.sorted_insertionSort tsDesc st.rows).sublist
    (List.take_sublist 100 (List.insertionSort tsDesc st.rows))

/-- Claim C4: a record call with an empty `originalCode` or an empty
`improvedCode` fails with the 400 validation response and leaves the store
unchanged. -/
theorem C4_empty_fields_rejected (digest : String → String) (now : String)
    (req : RecordReq) (st : Store)
    (h : req.originalCode = "" ∨ req.improvedCode = "") :
    postHistory digest now req st = (RecordResp.badRequest, st) := by
  unfold postHistory
  rw [if_pos h]

/-- Concrete instance of `C4_empty_fields_rejected`. -/
theorem C4_empty_fields_rejected_witness :
    ((("" : String) = "" ∨ ("x" : String) = "") ∧
      postHistory (fun s => s) "t" ⟨"", "x", none, none⟩ emptyStore =
        (RecordResp.badRequest, emptyStore)) :=
  ⟨Or.inl rfl, C4_empty_fields_rejected (fun s => s) "t" ⟨"", "x", none, none⟩ emptyStore
    (Or.inl rfl)⟩

/-- Claim C6: with no API credential configured, `reviewCode` fails
immediately with the missing-credentials error and issues no service request,
whatever the parser, service behaviour, and arguments are. -/
theorem C6_missing_credentials (apiKey : Option String)
    (parseJson : String → Option JsonValue) (svcResp : SvcResp) (args : ReviewArgs)
    (h : apiKey.getD "" = "") :
    reviewCode apiKey parseJson svcResp args = (Except.error missingKeyMsg, []) := by
  unfold reviewCode
  rw [if_pos h]

/-- Concrete instance of `C6_missing_credentials`. -/
theorem C6_missing_credentials_witness :
    ((none : Option String).getD "" = "" ∧
      reviewCode none (fun _ => none) (SvcResp.success "hi")
        ⟨"auto-detect me", "auto", ReviewMode.student, none, ImplementationStyle.default,
          ModelType.gemini3FlashPreview, "", "", VerbosityLevel.normal, ToneStyle.professional⟩ =
        (Except.error missingKeyMsg, [])) :=
  ⟨rfl, C6_missing_credentials none (fun _ => none) (SvcResp.success "hi")
    ⟨"auto-detect me", "auto", ReviewMode.student, none, ImplementationStyle.default,
      ModelType.gemini3FlashPreview, "", "", VerbosityLevel.normal, ToneStyle.professional⟩ rfl⟩

/-- Claim C8: the model-selection table aliases claude-4 to
gemini-3-flash-preview and gpt-5, microsoft-copilot, github-copilot to
gemini-3.1-pro-preview, and every identifier outside the table passes through
unchanged. -/
theorem C8_model_mapping :
    mapModel ModelType.claude4 = "gemini-3-flash-preview" ∧
    mapModel ModelType.gpt5 = "gemini-3.1-pro-preview" ∧
    mapModel ModelType.microsoftCopilot = "gemini-3.1-pro-preview" ∧
    mapModel ModelType.githubCopilot = "gemini-3.1-pro-preview" ∧
    ∀ m : ModelType,
      m ∉ [ModelType.claude4, ModelType.gpt5, ModelType.microsoftCopilot,
        ModelType.githubCopilot] →
      mapModel m = modelTypeStr m := by
  refine ⟨rfl, rfl, rfl, rfl, fun m hm => ?_⟩
  cases m <;> first | rfl | exact absurd (by decide) hm

/-- Concrete instance of the pass-through part of `C8_model_mapping`. -/
theorem C8_model_mapping_witness :
    (ModelType.gemini31ProPreview ∉ [ModelType.claude4, ModelType.gpt5,
      ModelType.microsoftCopilot, ModelType.githubCopilot]) ∧
    mapModel ModelType.gemini31ProPreview = modelTypeStr ModelType.gemini31ProPreview :=
  ⟨by decide, C8_model_mapping.2.2.2.2 ModelType.gemini31ProPreview (by decide)⟩

/-- Claim C9: with a credential configured, `chatWithCode` maps an empty
service payload to the fixed fallback string (not a failure) and a non-empty
payload to that answer text. -/
theorem C9_chat_fallback (apiKey : String) (args : ChatArgs) (h : apiKey ≠ "") :
    (chatWithCode (some apiKey) (SvcResp.success "") args).1 = Except.ok chatFallback ∧
    ∀ t : String, t ≠ "" →
      (chatWithCode (some apiKey) (SvcResp.success t) args).1 = Except.ok t := by
  constructor
  · simp [chatWithCode, h]
  · intro t ht
    simp [chatWithCode, h, ht]

/-- Concrete instance of `C9_chat_fallback`. -/
theorem C9_chat_fallback_witness :
    (("k" : String) ≠ "") ∧ (("an answer" : String) ≠ "") ∧
    (chatWithCode (some "k") (SvcResp.success "")
        ⟨"code", "why?", [], ModelType.gemini3FlashPreview, ""⟩).1 =
      Except.ok chatFallback ∧
    (chatWithCode (some "k") (SvcResp.success "an answer")
        ⟨"code", "why?", [], ModelType.gemini3FlashPreview, ""⟩).1 =
      Except.ok "an answer" :=
  ⟨by decide, by decide,
    (C9_chat_fallback "k" ⟨"code", "why?", [], ModelType.gemini3FlashPreview, ""⟩
      (by decide)).1,
    (C9_chat_fallback "k" ⟨"code", "why?", [], ModelType.gemini3FlashPreview, ""⟩
      (by decide)).2 "an answer" (by decide)⟩

/-- A record call whose digest is already committed is a pure no-op that
reports `inserted = false`. -/
theorem postHistory_dup (digest : String → String) (now : String) (req : RecordReq)
    (st : Store) (ho : req.originalCode ≠ "") (hi : req.improvedCode ≠ "")
    (h : digest (req.originalCode ++ req.improvedCode) ∈ st.rows.map HistoryRow.hash) :
    postHistory digest now req st = (RecordResp.ok false, st) := by
  unfold postHistory
  rw [if_neg (by simp [ho, hi]), if_pos h]

/-- After a valid record call, the digest of its concatenation is among the
committed hashes. -/
theorem hash_mem_after_post (digest : String → String) (t : String) (req : RecordReq)
    (st : Store) (ho : req.originalCode ≠ "") (hi : req.improvedCode ≠ "") :
    digest (req.originalCode ++ req.improvedCode) ∈
      ((postHistory digest t req st).2).rows.map HistoryRow.hash := by
  unfold postHistory
  rw [if_neg (by simp [ho, hi])]
  by_cases hdup : digest (req.originalCode ++ req.improvedCode) ∈ st.rows.map HistoryRow.hash
  · rw [if_pos hdup]
    exact hdup
  · rw [if_neg hdup]
    simp [rowOfReq]

/-- Claim C1: two record calls with the identical code pair (language and
complexity may differ): the second call answers `inserted = false` and leaves
the store - in particular its row count - unchanged; it is neither an error
nor a duplicate row. -/
theorem C1_duplicate_record_noop (digest : String → String) (t1 t2 : String)
    (req1 req2 : RecordReq) (st : Store)
    (ho : req1.originalCode ≠ "") (hi : req1.improvedCode ≠ "")
    (ho2 : req2.originalCode = req1.originalCode)
    (hi2 : req2.improvedCode = req1.improvedCode) :
    (postHistory digest t2 req2 (postHistory digest t1 req1 st).2).1 = RecordResp.ok false ∧
    (postHistory digest t2 req2 (postHistory digest t1 req1 st).2).2 =
      (postHistory digest t1 req1 st).2 := by
  have hmem : digest (req2.originalCode ++ req2.improvedCode) ∈
      ((postHistory digest t1 req1 st).2).rows.map HistoryRow.hash := by
    rw [ho2, hi2]
    exact hash_mem_after_post digest t1 req1 st ho hi
  have hcall := postHistory_dup digest t2 req2 (postHistory digest t1 req1 st).2
    (by rw [ho2]; exact ho) (by rw [hi2]; exact hi) hmem
  rw [hcall]
  exact ⟨rfl, rfl⟩

/-- Concrete instance of `C1_duplicate_record_noop`: the same pair recorded
twice, the second time with a different language tag. -/
theorem C1_duplicate_record_noop_witness :
    (("a" : String) ≠ "") ∧ (("b" : String) ≠ "") ∧
    (postHistory (fun s => s) "t2" ⟨"a", "b", some "python", none⟩
        (postHistory (fun s => s) "t1" ⟨"a", "b", none, none⟩ emptyStore).2).1 =
      RecordResp.ok false ∧
    (postHistory (fun s => s) "t2" ⟨"a", "b", some "python", none⟩
        (postHistory (fun s => s) "t1" ⟨"a", "b", none, none⟩ emptyStore).2).2 =
      (postHistory (fun s => s) "t1" ⟨"a", "b", none, none⟩ emptyStore).2 := by
  have h := C1_duplicate_record_noop (fun s => s) "t1" "t2" ⟨"a", "b", none, none⟩
    ⟨"a", "b", some "python", none⟩ emptyStore (by decide) (by decide) rfl rfl
  exact ⟨by decide, by decide, h.1, h.2⟩

/-- Claim C5: two valid record calls whose concatenations carry distinct
digests (SHA-256 is collision-free on any pair one can actually produce) and
whose digests are not yet in the store: both report `inserted = true`, the row
count grows by two, and two distinct rows carrying the two digests exist. -/
theorem C5_distinct_pairs_both_inserted (digest : String → String) (t1 t2 : String)
    (req1 req2 : RecordReq) (st : Store)
    (ho1 : req1.originalCode ≠ "") (hi1 : req1.improvedCode ≠ "")
    (ho2 : req2.originalCode ≠ "") (hi2 : req2.improvedCode ≠ "")
    (hne : digest (req1.originalCode ++ req1.improvedCode) ≠
      digest (req2.originalCode ++ req2.improvedCode))
    (hf1 : digest (req1.originalCode ++ req1.improvedCode) ∉ st.rows.map HistoryRow.hash)
    (hf2 : digest (req2.originalCode ++ req2.improvedCode) ∉ st.rows.map HistoryRow.hash) :
    (postHistory digest t1 req1 st).1 = RecordResp.ok true ∧
    (postHistory digest t2 req2 (postHistory digest t1 req1 st).2).1 = RecordResp.ok true ∧
    ((postHistory digest t2 req2 (postHistory digest t1 req1 st).2).2).rows.length =
      st.rows.length + 2 ∧
    ∃ ra rb,
      ra ∈ ((postHistory digest t2 req2 (postHistory digest t1 req1 st).2).2).rows ∧
      rb ∈ ((postHistory digest t2 req2 (postHistory digest t1 req1 st).2).2).rows ∧
      ra.hash = digest (req1.originalCode ++ req1.improvedCode) ∧
      rb.hash = digest (req2.originalCode ++ req2.improvedCode) ∧ ra ≠ rb := by
  have e1 : postHistory digest t1 req1 st =
      (RecordResp.ok true,
        ⟨st.rows ++
            [rowOfReq req1 t1 (digest (req1.originalCode ++ req1.improvedCode)) st.nextId],
          st.nextId + 1⟩) := by
    unfold postHistory
    rw [if_neg (by simp [ho1, hi1]), if_neg hf1]
  have e2 : postHistory digest t2 req2 (postHistory digest t1 req1 st).2 =
      (RecordResp.ok true,
        ⟨(st.rows ++
            [rowOfReq req1 t1 (digest (req1.originalCode ++ req1.improvedCode)) st.nextId]) ++
            [rowOfReq req2 t2 (digest (req2.originalCode ++ req2.improvedCode))
              (st.nextId + 1)],
          st.nextId + 2⟩) := by
    rw [e1]
    unfold postHistory
    rw [if_neg (by simp [ho2, hi2]), if_neg (by simp [rowOfReq, hf2, Ne.symm hne])]
  refine ⟨by rw [e1], by rw [e2], by rw [e2]; simp, ?_⟩
  refine ⟨rowOfReq req1 t1 (digest (req1.originalCode ++ req1.improvedCode)) st.nextId,
    rowOfReq req2 t2 (digest (req2.originalCode ++ req2.improvedCode)) (st.nextId + 1),
    by rw [e2]; simp, by rw [e2]; simp, rfl, rfl, ?_⟩
  intro hEq
  have hh := congrArg HistoryRow.hash hEq
  simp only [rowOfReq] at hh
  exact hne hh

/-- Concrete instance of `C5_distinct_pairs_both_inserted`: the same original
with two different improved texts. -/
theorem C5_distinct_pairs_both_inserted_witness :
    (("a" : String) ≠ "") ∧ (("b" : String) ≠ "") ∧ (("c" : String) ≠ "") ∧
    ((fun s => s) ("a" ++ "b") ≠ (fun s => s) ("a" ++ "c")) ∧
    ((fun s => s) ("a" ++ "b") ∉ emptyStore.rows.map HistoryRow.hash) ∧
    ((fun s => s) ("a" ++ "c") ∉ emptyStore.rows.map HistoryRow.hash) ∧
    (postHistory (fun s => s) "t1" ⟨"a", "b", none, none⟩ emptyStore).1 =
      RecordResp.ok true ∧
    (postHistory (fun s => s) "t2" ⟨"a", "c", none, none⟩
        (postHistory (fun s => s) "t1" ⟨"a", "b", none, none⟩ emptyStore).2).1 =
      RecordResp.ok true ∧
    ((postHistory (fun s => s) "t2" ⟨"a", "c", none, none⟩
        (postHistory (fun s => s) "t1" ⟨"a", "b", none, none⟩ emptyStore).2).2).rows.length =
      emptyStore.rows.length + 2 := by
  have h := C5_distinct_pairs_both_inserted (fun s => s) "t1" "t2" ⟨"a", "b", none, none⟩
    ⟨"a", "c", none, none⟩ emptyStore (by decide) (by decide) (by decide) (by decide)
    (by decide) (by decide) (by decide)
  exact ⟨by decide, by decide, by decide, by decide, by decide, by decide,
    h.1, h.2.1, h.2.2.1⟩

/-- Claim C10: the dedup key is the digest of the bare concatenation, so the
two genuinely different pairs ("ab", "c") and ("a", "bc") share it: after the
first is recorded, recording the second reports `inserted = false` and writes
nothing - whatever digest function the store uses. -/
theorem C10_concatenation_collision (digest : String → String) :
    (postHistory digest "t1" ⟨"ab", "c", none, none⟩ emptyStore).1 = RecordResp.ok true ∧
    (postHistory digest "t2" ⟨"a", "bc", none, none⟩
        (postHistory digest "t1" ⟨"ab", "c", none, none⟩ emptyStore).2).1 =
      RecordResp.ok false ∧
    (postHistory digest "t2" ⟨"a", "bc", none, none⟩
        (postHistory digest "t1" ⟨"ab", "c", none, none⟩ emptyStore).2).2 =
      (postHistory digest "t1" ⟨"ab", "c", none, none⟩ emptyStore).2 ∧
    ((postHistory digest "t1" ⟨"ab", "c", none, none⟩ emptyStore).2).rows.length = 1 ∧
    (("ab", "c") : String × String) ≠ ("a", "bc") := by
  have hcat : ("ab" : String) ++ "c" = "a" ++ "bc" := by decide
  have e1 : postHistory digest "t1" ⟨"ab", "c", none, none⟩ emptyStore =
      (RecordResp.ok true,
        ⟨[rowOfReq ⟨"ab", "c", none, none⟩ "t1" (digest ("ab" ++ "c")) 1], 2⟩) := by
    unfold postHistory emptyStore
    rw [if_neg (by simp), if_neg (by simp)]
    simp
  have e2 : postHistory digest "t2" ⟨"a", "bc", none, none⟩
      (postHistory digest "t1" ⟨"ab", "c", none, none⟩ emptyStore).2 =
      (RecordResp.ok false,
        ⟨[rowOfReq ⟨"ab", "c", none, none⟩ "t1" (digest ("ab" ++ "c")) 1], 2⟩) := by
    rw [e1]
    unfold postHistory
    rw [if_neg (by simp), if_pos (by simp [rowOfReq, ← hcat])]
  refine ⟨by rw [e1], by rw [e2], by rw [e2, e1], by rw [e1]; rfl, by decide⟩

/-- Conversion condition as the specification words it, for comparison with
the source's `isConversion`: the target language is present, is not the
sentinel "none", and differs from the possibly auto-detected source language —
i.e. from the detected language whenever the source hint is "auto". -/
def specConversionTrigger (sourceLanguage detectedLanguage : String)
    (targetLanguage : Option String) : Bool :=
  match targetLanguage with
  | none => false
  | some t =>
    !(t = "none") &&
      !(t = (if sourceLanguage = "auto" then detectedLanguage else sourceLanguage))

/-- Claim C7 is false on the code: with source hint "auto", target "python"
and a detected language of "python", the code still raises the conversion
directive (it compares the target with the literal string "auto"), while the
claim's condition - target differing from the auto-detected source language -
says the request is review-only. -/
theorem C7_counterexample :
    isConversion "auto" (some "python") = true ∧
    specConversionTrigger "auto" "python" (some "python") = false := by
  decide

/-- Claim C7 as amended: conversion is triggered iff `targetLanguage` is
present and non-empty, is not the sentinel "none", and differs from the
caller-supplied source-language string (which is the literal "auto" when
auto-detection was requested); the auto-detected language is never consulted. -/
theorem C7_conversion_trigger_amended (language : String) (targetLanguage : Option String) :
    isConversion language targetLanguage = true ↔
      ∃ t, targetLanguage = some t ∧ t ≠ "" ∧ t ≠ "none" ∧ t ≠ language := by
  cases targetLanguage with
  | none => simp [isConversion]
  | some t => simp [isConversion, and_assoc]

/-- Claim C2 is false on the code: with a credential configured and a backing
service answering the syntactically valid JSON text "\x7b\x7d" - an object
with no `complexity` field, hence not conforming to the declared schema - the
operation returns that partial payload as a success, not a
malformed-response failure.  (`JSON.parse` maps "\x7b\x7d" to the empty
object.) -/
theorem C2_counterexample :
    reviewCode (some "key")
        (fun s => if s = "\x7b\x7d" then some (JsonValue.obj []) else none)
        (SvcResp.success "\x7b\x7d")
        ⟨"auto-detect me", "auto", ReviewMode.student, none, ImplementationStyle.default,
          ModelType.gemini3FlashPreview, "", "", VerbosityLevel.normal,
          ToneStyle.professional⟩ =
      (Except.ok (JsonValue.obj []), [⟨"gemini-3-flash-preview", false⟩]) ∧
    (JsonValue.obj []).getField "complexity" = none := by
  exact ⟨rfl, rfl⟩

/-- Claim C2 as amended: the operation fails with the malformed-response
error - distinct from the credential, auth, safety, rate-limit, empty-response
and generic upstream messages - exactly on payloads that `JSON.parse` rejects;
a syntactically valid JSON payload is returned without any schema validation,
even when required fields such as `complexity` are missing. -/
theorem C2_malformed_only_on_parse_failure (apiKey : String)
    (parseJson : String → Option JsonValue) (text : String) (args : ReviewArgs)
    (hk : apiKey ≠ "") (ht : text ≠ "") (hp : parseJson text = none) :
    (reviewCode (some apiKey) parseJson (SvcResp.success text) args).1 =
      Except.error malformedMsg ∧
    malformedMsg ≠ missingKeyMsg ∧ malformedMsg ≠ invalidKeyMsg ∧
    malformedMsg ≠ safetyMsg ∧ malformedMsg ≠ quotaMsg ∧
    malformedMsg ≠ emptyResponseMsg ∧ malformedMsg ≠ defaultUpstreamMsg := by
  have hc : classify malformedMsg = malformedMsg := by decide
  refine ⟨?_, by decide, by decide, by decide, by decide, by decide, by decide⟩
  simp [reviewCode, hk, ht, hp, hc]

/-- Concrete instance of `C2_malformed_only_on_parse_failure`. -/
theorem C2_malformed_only_on_parse_failure_witness :
    (("key" : String) ≠ "") ∧ (("not json" : String) ≠ "") ∧
    ((fun _ : String => (none : Option JsonValue)) "not json" = none) ∧
    (reviewCode (some "key") (fun _ => none) (SvcResp.success "not json")
        ⟨"auto-detect me", "auto", ReviewMode.student, none, ImplementationStyle.default,
          ModelType.gemini3FlashPreview, "", "", VerbosityLevel.normal,
          ToneStyle.professional⟩).1 =
      Except.error malformedMsg := by
  have h := C2_malformed_only_on_parse_failure "key" (fun _ => none) "not json"
    ⟨"auto-detect me", "auto", ReviewMode.student, none, ImplementationStyle.default,
      ModelType.gemini3FlashPreview, "", "", VerbosityLevel.normal, ToneStyle.professional⟩
    (by decide) (by decide) rfl
  exact ⟨by decide, by decide, rfl, h.1⟩
